import Mathlib

/-!
Shallow embedding of the semantic-table layer of the sleigh-rs repository
(file `src/semantic/table/mod.rs`): the export-descriptor lattice, the
table-level error taxonomy and position-attaching adapter, constructor
elaboration, and the (spec-described) registration and export-unification
operations.  Rust `RefCell` mutation is modelled by explicit state passing:
`Table.register` returns the updated table together with an optional error.
-/

/-- Opaque provenance carrier (`InputSource` in the crate root): diagnostics
only, no semantic weight. -/
structure InputSource where
  id : Nat
deriving DecidableEq

/-- `NonZeroTypeU` (`NonZeroU64` in the crate): a strictly positive width. -/
abbrev NonZeroTypeU : Type := {n : Nat // 0 < n}

/-- External elaborated pattern value (opaque at this layer). -/
structure Pattern where
  code : Nat
deriving DecidableEq

/-- External elaborated display renderer (opaque at this layer). -/
structure Display where
  code : Nat
deriving DecidableEq

/-- External elaborated disassembly action set (opaque at this layer). -/
structure Disassembly where
  code : Nat
deriving DecidableEq

/-- External pattern-subsystem error (opaque structured value). -/
structure PatternError where
  code : Nat
deriving DecidableEq

/-- External disassembly-subsystem error (opaque structured value). -/
structure DisassemblyError where
  code : Nat
deriving DecidableEq

/-- External display-subsystem error (opaque structured value). -/
structure DisplayError where
  code : Nat
deriving DecidableEq

/-- External execution-subsystem error (opaque structured value). -/
structure ExecutionError where
  code : Nat
deriving DecidableEq

/-- `ExecutionExport`: the export descriptor a table presents to callers.
Mirrors the Rust enum: `None` carries nothing, the four other variants each
carry exactly one width. -/
inductive ExecutionExport where
  | None : ExecutionExport
  | Const : NonZeroTypeU → ExecutionExport
  | Value : NonZeroTypeU → ExecutionExport
  | Reference : NonZeroTypeU → ExecutionExport
  | Multiple : NonZeroTypeU → ExecutionExport
deriving DecidableEq

/-- `ExecutionExport::len`: the width of a non-`None` export, `none` for
the `None` variant.  Mirrors the Rust `match` verbatim. -/
def ExecutionExport.len : ExecutionExport → Option NonZeroTypeU
  | ExecutionExport.None => Option.none
  | ExecutionExport.Const l => some l
  | ExecutionExport.Value l => some l
  | ExecutionExport.Reference l => some l
  | ExecutionExport.Multiple l => some l

/-- External elaborated operational semantics.  Modelled from the spec:
this core only queries whether a value is present and, when present, its
export kind/width, so an `Execution` is modelled as carrying its export
descriptor. -/
structure Execution where
  exported : ExecutionExport
deriving DecidableEq

/-- `TableErrorSub`: the cause of a table error.  Mirrors the Rust enum:
two local structural causes and four subsystem errors embedded verbatim. -/
inductive TableErrorSub where
  | TableNameInvalid : TableErrorSub
  | TableConstructorExportSizeInvalid : TableErrorSub
  | Pattern : PatternError → TableErrorSub
  | Disassembly : DisassemblyError → TableErrorSub
  | Display : DisplayError → TableErrorSub
  | Execution : ExecutionError → TableErrorSub
deriving DecidableEq

/-- `TableError`: a source position paired with a cause. -/
structure TableError where
  table_pos : InputSource
  sub : TableErrorSub
deriving DecidableEq

/-- `from_error!(TableErrorSub, PatternError, Pattern)`: the generated
`From` impl embedding a pattern error verbatim. -/
def TableErrorSub.fromPattern (e : PatternError) : TableErrorSub :=
  TableErrorSub.Pattern e

/-- `from_error!(TableErrorSub, DisassemblyError, Disassembly)`. -/
def TableErrorSub.fromDisassembly (e : DisassemblyError) : TableErrorSub :=
  TableErrorSub.Disassembly e

/-- `from_error!(TableErrorSub, DisplayError, Display)`. -/
def TableErrorSub.fromDisplay (e : DisplayError) : TableErrorSub :=
  TableErrorSub.Display e

/-- `from_error!(TableErrorSub, ExecutionError, Execution)`. -/
def TableErrorSub.fromExecution (e : ExecutionError) : TableErrorSub :=
  TableErrorSub.Execution e

/-- `ToTableError::to_table`: the generic position-attaching adapter.
`into` stands for the `T: Into<TableErrorSub>` bound; a success passes
through unchanged, a failure is wrapped with the given position. -/
def Except.to_table {X T : Type} (r : Except T X) (into : T → TableErrorSub)
    (table_pos : InputSource) : Except TableError X :=
  match r with
  | Except.ok x => Except.ok x
  | Except.error e => Except.error { table_pos := table_pos, sub := into e }

/-- Raw (pre-elaboration) pattern, consumed only through its fallible
elaboration entry point (`TryInto<Pattern>`); the outcome is carried as
data since the subsystem is external. -/
structure RawPattern where
  result : Except PatternError Pattern

/-- The pattern subsystem's elaboration entry point (`try_into`). -/
def RawPattern.try_into (p : RawPattern) : Except PatternError Pattern :=
  p.result

/-- Raw display node; its elaboration (`into`) is infallible at this layer. -/
structure RawDisplay where
  result : Display

/-- The display subsystem's elaboration entry point (`into`). -/
def RawDisplay.into (d : RawDisplay) : Display :=
  d.result

/-- Raw operational-semantics node; its elaboration (`convert`) is
infallible at this layer. -/
structure RawExecution where
  result : Execution

/-- The execution subsystem's elaboration entry point (`convert`). -/
def RawExecution.convert (e : RawExecution) : Execution :=
  e.result

/-- Raw disassembly node; its elaboration (`convert`) is infallible at
this layer. -/
structure RawDisassembly where
  result : Disassembly

/-- The disassembly subsystem's elaboration entry point (`convert`). -/
def RawDisassembly.convert (d : RawDisassembly) : Disassembly :=
  d.result

namespace inner

/-- `inner::Constructor`: the raw constructor produced by the front end,
one field per subsystem plus its source position. -/
structure Constructor where
  pattern : RawPattern
  display : RawDisplay
  execution : Option RawExecution
  disassembly : RawDisassembly
  src : InputSource

end inner

/-- `Constructor`: one fully elaborated decode rule. -/
structure Constructor where
  pattern : Pattern
  display : Display
  disassembly : Disassembly
  execution : Option Execution
  src : InputSource
deriving DecidableEq

/-- `Table`: named collection of constructors plus its unified export.
The two `RefCell` fields become plain fields updated by state passing. -/
structure Table where
  name : String
  constructors : List Constructor
  exported : ExecutionExport
deriving DecidableEq

/-- `IDENT_INSTRUCTION`: the reserved root-table identifier supplied by
the crate root. -/
def IDENT_INSTRUCTION : String := "instruction"

/-- `Table::is_root`: true iff the table's name is the reserved root
identifier. -/
def Table.is_root (t : Table) : Bool :=
  t.name == IDENT_INSTRUCTION

/-- `Table::new_empty`: a table with no constructors and the default
(`None`) export; it cannot fail. -/
def Table.new_empty (name : String) : Table :=
  { name := name
  , constructors := []
  , exported := ExecutionExport.None }

/-- `TryFrom<inner::Constructor> for Constructor`: elaborate the pattern
(the only fallible step, wrapped with the raw constructor's own source
position), then the display, the optional semantics and the disassembly,
carrying the source position through. -/
def Constructor.try_from (value : inner.Constructor) :
    Except TableError Constructor :=
  match value.pattern.try_into.to_table TableErrorSub.Pattern value.src with
  | Except.error e => Except.error e
  | Except.ok pattern =>
      Except.ok
        { pattern := pattern
        , display := value.display.into
        , execution := value.execution.map (fun x => x.convert)
        , disassembly := value.disassembly.convert
        , src := value.src }

/-- Modelled from the spec: the export a constructor contributes, read
from its optional semantics; absence of semantics means no produced value
(`None`).  The function carrying this out is not under `src`. -/
def Constructor.exported (c : Constructor) : ExecutionExport :=
  match c.execution with
  | Option.none => ExecutionExport.None
  | some e => e.exported

/-- Modelled from the spec: a numeric tag for an export's kind, used to
compare kinds independently of widths. -/
def ExecutionExport.kindIndex : ExecutionExport → Nat
  | ExecutionExport.None => 0
  | ExecutionExport.Const _ => 1
  | ExecutionExport.Value _ => 2
  | ExecutionExport.Reference _ => 3
  | ExecutionExport.Multiple _ => 4

/-- Modelled from the spec: the export-unification folding rule of §4.3;
the unification code itself is not under `src`.  `None` against `None`
stays `None`; the first non-`None` export becomes the table's export
verbatim; same kind and width leaves the export unchanged; different kind
at the same width promotes to `Multiple`; a width mismatch, or mixing
`None` with an established non-`None` export, fails (fail-closed). -/
def ExecutionExport.combine (cur new : ExecutionExport) :
    Option ExecutionExport :=
  match cur.len, new.len with
  | Option.none, Option.none => some ExecutionExport.None
  | Option.none, some _ => some new
  | some _, Option.none => Option.none
  | some w, some w2 =>
      if w = w2 then
        if cur.kindIndex = new.kindIndex then some cur
        else some (ExecutionExport.Multiple w)
      else Option.none

/-- Modelled from the spec: table-name validity; an empty name is invalid
(other malformedness is unspecified, so emptiness is the modelled check);
the validation code is not under `src`. -/
def tableNameValid (name : String) : Bool :=
  !name.isEmpty

/-- Modelled from the spec: `register` of §4.1, which is not under `src`.
Check name validity first, then elaborate the raw constructor, then unify
its export into the table's export, appending on success; all-or-nothing
on failure.  Returns the (possibly updated) table and an optional error. -/
def Table.register (t : Table) (raw : inner.Constructor) :
    Table × Option TableError :=
  if tableNameValid t.name then
    match Constructor.try_from raw with
    | Except.error e => (t, some e)
    | Except.ok c =>
        match t.exported.combine c.exported with
        | some ex =>
            ({ t with
                constructors := t.constructors ++ [c]
              , exported := ex }
            , Option.none)
        | Option.none =>
            (t
            , some { table_pos := raw.src
                   , sub := TableErrorSub.TableConstructorExportSizeInvalid })
  else
    (t, some { table_pos := raw.src, sub := TableErrorSub.TableNameInvalid })

/-- Sample width 4, used by concrete witnesses. -/
def w4 : NonZeroTypeU := ⟨4, by decide⟩

/-- Sample width 8, used by concrete witnesses. -/
def w8 : NonZeroTypeU := ⟨8, by decide⟩

/-- Sample source position, used by concrete witnesses. -/
def pos7 : InputSource := ⟨7⟩

/-- Sample raw constructor whose pattern elaborates successfully and whose
semantics exports `Const(4)`. -/
def rawConst4 : inner.Constructor :=
  { pattern := ⟨Except.ok ⟨1⟩⟩
  , display := ⟨⟨2⟩⟩
  , execution := some ⟨⟨ExecutionExport.Const w4⟩⟩
  , disassembly := ⟨⟨3⟩⟩
  , src := pos7 }

/-- The elaborated form of `rawConst4`. -/
def conConst4 : Constructor :=
  { pattern := ⟨1⟩
  , display := ⟨2⟩
  , disassembly := ⟨3⟩
  , execution := some ⟨ExecutionExport.Const w4⟩
  , src := pos7 }

/-- Sample raw constructor whose semantics exports `Value(4)`. -/
def rawValue4 : inner.Constructor :=
  { pattern := ⟨Except.ok ⟨1⟩⟩
  , display := ⟨⟨2⟩⟩
  , execution := some ⟨⟨ExecutionExport.Value w4⟩⟩
  , disassembly := ⟨⟨3⟩⟩
  , src := pos7 }

/-- The elaborated form of `rawValue4`. -/
def conValue4 : Constructor :=
  { pattern := ⟨1⟩
  , display := ⟨2⟩
  , disassembly := ⟨3⟩
  , execution := some ⟨ExecutionExport.Value w4⟩
  , src := pos7 }

/-- Sample raw constructor whose semantics exports `Value(8)`. -/
def rawValue8 : inner.Constructor :=
  { pattern := ⟨Except.ok ⟨1⟩⟩
  , display := ⟨⟨2⟩⟩
  , execution := some ⟨⟨ExecutionExport.Value w8⟩⟩
  , disassembly := ⟨⟨3⟩⟩
  , src := pos7 }

/-- Sample raw constructor whose pattern elaboration fails, without
semantics. -/
def rawBadPattern : inner.Constructor :=
  { pattern := ⟨Except.error ⟨9⟩⟩
  , display := ⟨⟨2⟩⟩
  , execution := Option.none
  , disassembly := ⟨⟨3⟩⟩
  , src := pos7 }

/-- Sample table with a valid name and established export `Value(4)`. -/
def tableValue4 : Table :=
  { name := "reg8", constructors := [], exported := ExecutionExport.Value w4 }

/-- The elaborated form of `rawValue8`. -/
def conValue8 : Constructor :=
  { pattern := ⟨1⟩
  , display := ⟨2⟩
  , disassembly := ⟨3⟩
  , execution := some ⟨ExecutionExport.Value w8⟩
  , src := pos7 }

/-- Sample raw constructor with a successful pattern and no semantics. -/
def rawNoExec : inner.Constructor :=
  { pattern := ⟨Except.ok ⟨1⟩⟩
  , display := ⟨⟨2⟩⟩
  , execution := Option.none
  , disassembly := ⟨⟨3⟩⟩
  , src := pos7 }

/-- The elaborated form of `rawNoExec`. -/
def conNoExec : Constructor :=
  { pattern := ⟨1⟩
  , display := ⟨2⟩
  , disassembly := ⟨3⟩
  , execution := Option.none
  , src := pos7 }

/-- Sample table whose name is empty, hence invalid for registration. -/
def tableNoName : Table :=
  { name := "", constructors := [], exported := ExecutionExport.None }

/-- Claim C4: `new_empty(name)` returns a table with the given name, an
empty constructor sequence and export `None`; being a total function it
never fails, and no check on the name occurs at creation. -/
theorem new_empty_is_empty_with_none_export (name : String) :
    (Table.new_empty name).name = name ∧
    (Table.new_empty name).constructors = [] ∧
    (Table.new_empty name).exported = ExecutionExport.None :=
  ⟨rfl, rfl, rfl⟩

/-- Claim C5: the export descriptor carries no width exactly in the `None`
variant; every other variant carries exactly one width, that width is
strictly positive, and `len` returns it. -/
theorem export_len_none_iff_and_width_positive (e : ExecutionExport) :
    (e.len = Option.none ↔ e = ExecutionExport.None) ∧
    (∀ w : NonZeroTypeU, e.len = some w →
      0 < w.val ∧
      (e = ExecutionExport.Const w ∨ e = ExecutionExport.Value w ∨
       e = ExecutionExport.Reference w ∨ e = ExecutionExport.Multiple w)) := by
  refine ⟨?_, ?_⟩
  · cases e <;> simp [ExecutionExport.len]
  · intro w hw
    refine ⟨w.2, ?_⟩
    cases e <;> simp [ExecutionExport.len] at hw <;> simp [hw]

/-- Witness for C5: evaluated at `Const(4)`. -/
theorem export_len_none_iff_and_width_positive_witness :
    0 < w4.val ∧
    (ExecutionExport.Const w4 = ExecutionExport.Const w4 ∨
     ExecutionExport.Const w4 = ExecutionExport.Value w4 ∨
     ExecutionExport.Const w4 = ExecutionExport.Reference w4 ∨
     ExecutionExport.Const w4 = ExecutionExport.Multiple w4) :=
  (export_len_none_iff_and_width_positive (ExecutionExport.Const w4)).2 w4 rfl

/-- Claim C9: `is_root` is true exactly when the table's name equals the
reserved root identifier; as a Lean function it is pure by construction. -/
theorem is_root_iff_name_is_ident_instruction (t : Table) :
    t.is_root = true ↔ t.name = IDENT_INSTRUCTION := by
  simp [Table.is_root]

/-- Witness for C9: evaluated at a table literally named by the root
identifier. -/
theorem is_root_iff_name_is_ident_instruction_witness :
    (Table.new_empty IDENT_INSTRUCTION).is_root = true :=
  (is_root_iff_name_is_ident_instruction (Table.new_empty IDENT_INSTRUCTION)).mpr rfl

/-- Claim C7: the generic position-attaching adapter passes any success
through unchanged and wraps any failure as a `TableError` whose position
is exactly the given one and whose cause is the converted error. -/
theorem to_table_preserves_ok_and_wraps_error {X T : Type}
    (into : T → TableErrorSub) (r : Except T X) (p : InputSource) :
    (∀ x, r = Except.ok x → r.to_table into p = Except.ok x) ∧
    (∀ e, r = Except.error e →
      r.to_table into p = Except.error { table_pos := p, sub := into e }) := by
  constructor
  · intro x hx
    subst hx
    rfl
  · intro e he
    subst he
    rfl

/-- Witness for C7: evaluated at a concrete success and a concrete
failure over the pattern subsystem. -/
theorem to_table_preserves_ok_and_wraps_error_witness :
    (Except.ok ⟨1⟩ : Except PatternError Pattern).to_table
        TableErrorSub.Pattern pos7 = Except.ok ⟨1⟩ ∧
    (Except.error ⟨9⟩ : Except PatternError Pattern).to_table
        TableErrorSub.Pattern pos7 =
      Except.error { table_pos := pos7, sub := TableErrorSub.Pattern ⟨9⟩ } :=
  ⟨(to_table_preserves_ok_and_wraps_error TableErrorSub.Pattern
      (Except.ok ⟨1⟩ : Except PatternError Pattern) pos7).1 ⟨1⟩ rfl
  , (to_table_preserves_ok_and_wraps_error TableErrorSub.Pattern
      (Except.error ⟨9⟩ : Except PatternError Pattern) pos7).2 ⟨9⟩ rfl⟩

/-- Claim C6: every table error is exactly a pair of a position and a
cause; the cause is one of precisely six forms (invalid name, export-size
mismatch, or a wrapped pattern, disassembly, display or execution error),
and each wrapped subsystem error is embedded verbatim (the embedding is
injective, so the structured root cause is recoverable). -/
theorem table_error_is_position_and_cause (err : TableError) :
    err = { table_pos := err.table_pos, sub := err.sub } ∧
    (err.sub = TableErrorSub.TableNameInvalid ∨
     err.sub = TableErrorSub.TableConstructorExportSizeInvalid ∨
     (∃ e, err.sub = TableErrorSub.fromPattern e) ∨
     (∃ e, err.sub = TableErrorSub.fromDisassembly e) ∨
     (∃ e, err.sub = TableErrorSub.fromDisplay e) ∨
     (∃ e, err.sub = TableErrorSub.fromExecution e)) ∧
    (∀ a b : PatternError,
      TableErrorSub.fromPattern a = TableErrorSub.fromPattern b → a = b) ∧
    (∀ a b : DisassemblyError,
      TableErrorSub.fromDisassembly a = TableErrorSub.fromDisassembly b → a = b) ∧
    (∀ a b : DisplayError,
      TableErrorSub.fromDisplay a = TableErrorSub.fromDisplay b → a = b) ∧
    (∀ a b : ExecutionError,
      TableErrorSub.fromExecution a = TableErrorSub.fromExecution b → a = b) := by
  refine ⟨rfl, ?_, ?_, ?_, ?_, ?_⟩
  · cases h : err.sub <;> simp [TableErrorSub.fromPattern,
      TableErrorSub.fromDisassembly, TableErrorSub.fromDisplay,
      TableErrorSub.fromExecution]
  · intro a b hab
    simpa [TableErrorSub.fromPattern] using hab
  · intro a b hab
    simpa [TableErrorSub.fromDisassembly] using hab
  · intro a b hab
    simpa [TableErrorSub.fromDisplay] using hab
  · intro a b hab
    simpa [TableErrorSub.fromExecution] using hab

/-- Witness for C6: evaluated at a concrete wrapped pattern error. -/
theorem table_error_is_position_and_cause_witness :
    ({ table_pos := pos7, sub := TableErrorSub.Pattern ⟨9⟩ } : TableError).sub
        = TableErrorSub.TableNameInvalid ∨
    ({ table_pos := pos7, sub := TableErrorSub.Pattern ⟨9⟩ } : TableError).sub
        = TableErrorSub.TableConstructorExportSizeInvalid ∨
    (∃ e, ({ table_pos := pos7, sub := TableErrorSub.Pattern ⟨9⟩ } :
        TableError).sub = TableErrorSub.fromPattern e) ∨
    (∃ e, ({ table_pos := pos7, sub := TableErrorSub.Pattern ⟨9⟩ } :
        TableError).sub = TableErrorSub.fromDisassembly e) ∨
    (∃ e, ({ table_pos := pos7, sub := TableErrorSub.Pattern ⟨9⟩ } :
        TableError).sub = TableErrorSub.fromDisplay e) ∨
    (∃ e, ({ table_pos := pos7, sub := TableErrorSub.Pattern ⟨9⟩ } :
        TableError).sub = TableErrorSub.fromExecution e) :=
  (table_error_is_position_and_cause
    { table_pos := pos7, sub := TableErrorSub.Pattern ⟨9⟩ }).2.1

/-- Claim C3: a pattern-elaboration failure `e` makes constructor
elaboration fail with a `TableError` whose cause is exactly `Pattern e`
and whose position is the raw constructor's own source position; and
pattern elaboration is the only fallible step: any pattern success makes
the whole elaboration succeed. -/
theorem try_from_wraps_exact_pattern_error (raw : inner.Constructor) :
    (∀ e, raw.pattern.try_into = Except.error e →
      Constructor.try_from raw =
        Except.error { table_pos := raw.src, sub := TableErrorSub.Pattern e }) ∧
    (∀ p, raw.pattern.try_into = Except.ok p →
      Constructor.try_from raw =
        Except.ok
          { pattern := p
          , display := raw.display.into
          , execution := raw.execution.map (fun x => x.convert)
          , disassembly := raw.disassembly.convert
          , src := raw.src }) := by
  constructor
  · intro e he
    simp [Constructor.try_from, Except.to_table, he]
  · intro p hp
    simp [Constructor.try_from, Except.to_table, hp]

/-- Witness for C3: evaluated at a raw constructor whose pattern fails
with error code 9. -/
theorem try_from_wraps_exact_pattern_error_witness :
    Constructor.try_from rawBadPattern =
      Except.error { table_pos := pos7, sub := TableErrorSub.Pattern ⟨9⟩ } :=
  (try_from_wraps_exact_pattern_error rawBadPattern).1 ⟨9⟩ rfl

/-- Claim C8: on successful elaboration, absence of raw semantics yields
`execution = none`, and declared raw semantics yields its elaborated
(converted) value. -/
theorem try_from_execution_presence (raw : inner.Constructor)
    (c : Constructor) (h : Constructor.try_from raw = Except.ok c) :
    (raw.execution = Option.none → c.execution = Option.none) ∧
    (∀ x, raw.execution = some x → c.execution = some x.convert) := by
  cases hp : raw.pattern.try_into with
  | error e =>
      simp [Constructor.try_from, Except.to_table, hp] at h
  | ok p =>
      simp [Constructor.try_from, Except.to_table, hp] at h
      constructor
      · intro hx
        simp [← h, hx]
      · intro x hx
        simp [← h, hx]

/-- Witness for C8: evaluated at one raw constructor without semantics
and one whose semantics exports `Const(4)`. -/
theorem try_from_execution_presence_witness :
    conNoExec.execution = Option.none ∧
    conConst4.execution = some (RawExecution.convert ⟨⟨ExecutionExport.Const w4⟩⟩) :=
  ⟨(try_from_execution_presence rawNoExec conNoExec rfl).1 rfl
  , (try_from_execution_presence rawConst4 conConst4 rfl).2
      ⟨⟨ExecutionExport.Const w4⟩⟩ rfl⟩

/-- Claim C10: successful elaboration preserves provenance: the produced
constructor's source position equals the raw constructor's. -/
theorem try_from_preserves_src (raw : inner.Constructor)
    (c : Constructor) (h : Constructor.try_from raw = Except.ok c) :
    c.src = raw.src := by
  cases hp : raw.pattern.try_into with
  | error e =>
      simp [Constructor.try_from, Except.to_table, hp] at h
  | ok p =>
      simp [Constructor.try_from, Except.to_table, hp] at h
      simp [← h]

/-- Witness for C10: evaluated at `rawConst4`. -/
theorem try_from_preserves_src_witness : conConst4.src = rawConst4.src :=
  try_from_preserves_src rawConst4 conConst4 rfl

/-- Claim C2: registering any raw constructor into a table whose name is
invalid fails with the invalid-table-name error and returns the table
unchanged; since this holds for every raw constructor (elaborable or
not), the name check precedes constructor elaboration. -/
theorem register_invalid_name_fails_without_mutation
    (t : Table) (raw : inner.Constructor)
    (h : tableNameValid t.name = false) :
    t.register raw =
      (t, some { table_pos := raw.src, sub := TableErrorSub.TableNameInvalid }) := by
  simp [Table.register, h]

/-- Witness for C2: evaluated at the empty-named table and a raw
constructor whose pattern elaboration would itself fail, showing the
name error wins. -/
theorem register_invalid_name_fails_without_mutation_witness :
    tableNameValid tableNoName.name = false ∧
    tableNoName.register rawBadPattern =
      (tableNoName
      , some { table_pos := pos7, sub := TableErrorSub.TableNameInvalid }) :=
  ⟨rfl, register_invalid_name_fails_without_mutation tableNoName rawBadPattern rfl⟩

/-- Helper: unifying two exports of the same width but different kinds
promotes to `Multiple` of that width. -/
theorem combine_same_width_diff_kind (a b : ExecutionExport)
    (w : NonZeroTypeU) (ha : a.len = some w) (hb : b.len = some w)
    (hk : a.kindIndex ≠ b.kindIndex) :
    a.combine b = some (ExecutionExport.Multiple w) := by
  unfold ExecutionExport.combine
  rw [ha, hb]
  simp [hk]

/-- Helper: unifying two exports of the same kind and width leaves the
established export unchanged. -/
theorem combine_same_width_same_kind (a b : ExecutionExport)
    (w : NonZeroTypeU) (ha : a.len = some w) (hb : b.len = some w)
    (hk : a.kindIndex = b.kindIndex) :
    a.combine b = some a := by
  unfold ExecutionExport.combine
  rw [ha, hb]
  simp [hk]

/-- Helper: unifying two exports of different widths fails. -/
theorem combine_diff_width (a b : ExecutionExport)
    (w w2 : NonZeroTypeU) (ha : a.len = some w) (hb : b.len = some w2)
    (hw : w ≠ w2) :
    a.combine b = Option.none := by
  unfold ExecutionExport.combine
  rw [ha, hb]
  simp [hw]

/-- Claim C1: against an established non-`None` export of width `w`, a
constructor exporting the same width but a different kind registers
successfully and promotes the table export to `Multiple(w)`; the same
kind and width registers successfully leaving the export unchanged; a
different width fails with the export-size-mismatch error and leaves the
table unchanged. -/
theorem register_export_unification :
    (∀ (t : Table) (raw : inner.Constructor) (c : Constructor)
        (w : NonZeroTypeU),
      tableNameValid t.name = true →
      Constructor.try_from raw = Except.ok c →
      t.exported.len = some w →
      c.exported.len = some w →
      t.exported.kindIndex ≠ c.exported.kindIndex →
      t.register raw =
        ({ t with
            constructors := t.constructors ++ [c]
          , exported := ExecutionExport.Multiple w }
        , Option.none)) ∧
    (∀ (t : Table) (raw : inner.Constructor) (c : Constructor)
        (w : NonZeroTypeU),
      tableNameValid t.name = true →
      Constructor.try_from raw = Except.ok c →
      t.exported.len = some w →
      c.exported.len = some w →
      t.exported.kindIndex = c.exported.kindIndex →
      t.register raw =
        ({ t with constructors := t.constructors ++ [c] }, Option.none)) ∧
    (∀ (t : Table) (raw : inner.Constructor) (c : Constructor)
        (w w2 : NonZeroTypeU),
      tableNameValid t.name = true →
      Constructor.try_from raw = Except.ok c →
      t.exported.len = some w →
      c.exported.len = some w2 →
      w ≠ w2 →
      t.register raw =
        (t
        , some { table_pos := raw.src
               , sub := TableErrorSub.TableConstructorExportSizeInvalid })) := by
  refine ⟨?_, ?_, ?_⟩
  · intro t raw c w hname hok hlen hclen hkind
    have hc : t.exported.combine c.exported =
        some (ExecutionExport.Multiple w) :=
      combine_same_width_diff_kind _ _ _ hlen hclen hkind
    simp [Table.register, hname, hok, hc]
  · intro t raw c w hname hok hlen hclen hkind
    have hc : t.exported.combine c.exported = some t.exported :=
      combine_same_width_same_kind _ _ _ hlen hclen hkind
    simp [Table.register, hname, hok, hc]
  · intro t raw c w w2 hname hok hlen hclen hw
    have hc : t.exported.combine c.exported = Option.none :=
      combine_diff_width _ _ _ _ hlen hclen hw
    simp [Table.register, hname, hok, hc]

/-- Witness for C1: a table with export `Value(4)` registering exports
`Const(4)` (promoted to `Multiple(4)`), `Value(4)` (unchanged) and
`Value(8)` (export-size mismatch). -/
theorem register_export_unification_witness :
    tableValue4.register rawConst4 =
      ({ name := "reg8"
       , constructors := [conConst4]
       , exported := ExecutionExport.Multiple w4 }
      , Option.none) ∧
    tableValue4.register rawValue4 =
      ({ name := "reg8"
       , constructors := [conValue4]
       , exported := ExecutionExport.Value w4 }
      , Option.none) ∧
    tableValue4.register rawValue8 =
      (tableValue4
      , some { table_pos := pos7
             , sub := TableErrorSub.TableConstructorExportSizeInvalid }) :=
  ⟨register_export_unification.1 tableValue4 rawConst4 conConst4 w4
      rfl rfl rfl rfl (by decide)
  , register_export_unification.2.1 tableValue4 rawValue4 conValue4 w4
      rfl rfl rfl rfl rfl
  , register_export_unification.2.2 tableValue4 rawValue8 conValue8 w4 w8
      rfl rfl rfl rfl (by decide)⟩
